import Mathlib

/-
Verification of the acdcontrol brightness-control program (src/acdcontrol.py).

The development shallowly embeds the program:
  * the fixed-layout hiddev records exchanged with the Linux hiddev driver,
  * the ioctl opcode construction (the repository's `ioctl` helper module is
    not under src/, so that layer is modelled from the specification),
  * the `AppleCinemaDisplay` session: construction (device-info read, vendor
    and product acceptance against SUPPORTED_DEVICES, application enumeration,
    report initialisation) and the operations `get_brightness`,
    `set_brightness`, `adjust_brightness`.

The driver is modelled as a transport double holding one stored brightness
value (echoing writes back on reads) together with one status per ioctl
request; each operation returns the trace of warning / buffer-store / driver
call events it performs, the updated transport and session states, and its
error or return value.
-/

namespace Acdcontrol

/-! ## Binary records (src/acdcontrol.py lines 74-104)

Machine integers are modelled as `Nat` for the unsigned ctypes fields and
`Int` for the signed `value` field of `hiddev_usage_ref`.  The program only
ever stores values in `[0, 255]` into the c_int `value`, so no wrap-around
modelling is needed on the write path; on the read path the driver fills the
field with an arbitrary int32 of its choice. -/

/-- Record `hiddev_devinfo` (four c_uint, three c_ushort, one c_uint). -/
structure hiddev_devinfo where
  bustype : Nat
  busnum : Nat
  devnum : Nat
  ifnum : Nat
  vendor : Nat
  product : Nat
  version : Nat
  num_applications : Nat
deriving Repr, DecidableEq

/-- Record `hiddev_usage_ref` (five c_uint fields and a c_int `value`). -/
structure hiddev_usage_ref where
  report_type : Nat
  report_id : Nat
  field_index : Nat
  usage_index : Nat
  usage_code : Nat
  value : Int
deriving Repr, DecidableEq

/-- Record `hiddev_report_info` (three c_uint fields). -/
structure hiddev_report_info where
  report_type : Nat
  report_id : Nat
  num_fields : Nat
deriving Repr, DecidableEq

/-- Constant from src/acdcontrol.py line 114. -/
def HID_REPORT_TYPE_FEATURE : Nat := 3

/-- Constant from src/acdcontrol.py line 141. -/
def BRIGHTNESS_CONTROL : Nat := 16

/-- Constant from src/acdcontrol.py line 142. -/
def USAGE_CODE : Nat := 0x820010

/-! ## The ioctl opcode layer

The source imports a repository module `ioctl` providing `IO`, `IOR`, `IOW`
and `IOWR`; that module is not under src/, so it is modelled from the
specification (section 4.1). -/

/-- Modelled from the spec: `encode_request` of the repository's `ioctl`
module (not under src/).  It packs a 2-bit direction flag in the high bits
(bits 30-31), a 14-bit payload size (bits 16-29), an 8-bit group identifier
(bits 8-15) and an 8-bit operation number (bits 0-7), matching the Linux
ioctl opcode encoding convention bit for bit. -/
def IOC (dir group nr size : Nat) : Nat :=
  (dir <<< 30) ||| (size <<< 16) ||| (group <<< 8) ||| nr

/-- Direction flag: no data transfer. -/
def IOC_NONE : Nat := 0

/-- Direction flag: userland writes to the driver. -/
def IOC_WRITE : Nat := 1

/-- Direction flag: userland reads from the driver. -/
def IOC_READ : Nat := 2

/-- Modelled from the spec: the no-data convenience builder (`ioctl.IO`). -/
def IOnodata (group nr : Nat) : Nat := IOC IOC_NONE group nr 0

/-- Modelled from the spec: the read-only convenience builder (`ioctl.IOR`). -/
def IOR (group nr size : Nat) : Nat := IOC IOC_READ group nr size

/-- Modelled from the spec: the write-only convenience builder (`ioctl.IOW`). -/
def IOW (group nr size : Nat) : Nat := IOC IOC_WRITE group nr size

/-- Modelled from the spec: the read-write convenience builder (`ioctl.IOWR`). -/
def IOWR (group nr size : Nat) : Nat := IOC (IOC_READ ||| IOC_WRITE) group nr size

/-- Decoder for the direction bits of an opcode. -/
def IOC_DIR (code : Nat) : Nat := (code >>> 30) &&& 3

/-- Decoder for the 14-bit payload-size window of an opcode. -/
def IOC_SIZE (code : Nat) : Nat := (code >>> 16) &&& ((1 <<< 14) - 1)

/-- Decoder for the 8-bit group-identifier window of an opcode. -/
def IOC_GROUP (code : Nat) : Nat := (code >>> 8) &&& 0xFF

/-- Decoder for the 8-bit operation-number window of an opcode. -/
def IOC_NR (code : Nat) : Nat := code &&& 0xFF

/-- Wire size of `hiddev_usage_ref`: six 4-byte fields. -/
def hiddev_usage_ref_size : Nat := 24

/-- Wire size of `hiddev_report_info`: three 4-byte fields. -/
def hiddev_report_info_size : Nat := 12

/-- Wire size of `hiddev_devinfo` (with the 2 alignment-padding bytes). -/
def hiddev_devinfo_size : Nat := 28

/-- Opcode `HIDIOCGDEVINFO` (src line 123); the group is `ord H = 72`. -/
def HIDIOCGDEVINFO : Nat := IOR 72 0x03 hiddev_devinfo_size

/-- Opcode `HIDIOCAPPLICATION` (src line 122). -/
def HIDIOCAPPLICATION : Nat := IOnodata 72 0x02

/-- Opcode `HIDIOCINITREPORT` (src line 125). -/
def HIDIOCINITREPORT : Nat := IOnodata 72 0x05

/-- Opcode `HIDIOCGREPORT` (src line 127). -/
def HIDIOCGREPORT : Nat := IOW 72 0x07 hiddev_report_info_size

/-- Opcode `HIDIOCSREPORT` (src line 128). -/
def HIDIOCSREPORT : Nat := IOW 72 0x08 hiddev_report_info_size

/-- Opcode `HIDIOCGUSAGE` (src line 131). -/
def HIDIOCGUSAGE : Nat := IOWR 72 0x0B hiddev_usage_ref_size

/-- Opcode `HIDIOCSUSAGE` (src line 132). -/
def HIDIOCSUSAGE : Nat := IOW 72 0x0C hiddev_usage_ref_size

/-! ## Supported-device table (src/acdcontrol.py lines 17-32)

Python dict iteration follows insertion order, and the vendor / product
loops break at the first match, so an ordered association list with
`List.find?` models the lookups exactly. -/

/-- The `SUPPORTED_DEVICES` table: each entry is a `(vendor_id, vendor_name)`
pair with the vendor's list of `(product_id, product_name)` pairs. -/
def SUPPORTED_DEVICES : List ((Nat × String) × List (Nat × String)) :=
  [((0x05ac, "Apple"),
    [(0x9215, "Apple Studio Display 15\""),
     (0x9217, "Apple Studio Display 17\""),
     (0x9218, "Apple Cinema Display 23\""),
     (0x9219, "Apple Cinema Display 20\""),
     (0x921e, "Apple Cinema Display 24\""),
     (0x9226, "Apple Cinema HD Display 27\""),
     (0x9227, "Apple Cinema HD Display 27\" 2013"),
     (0x9232, "Apple Cinema HD Display 30\""),
     (0x9236, "Apple LED Cinema Display 24\"")]),
   ((0x0419, "Samsung Electronics"),
    [(0x8002, "Samsung SyncMaster 757NF")])]

/-! ## Session state and driver transport double -/

/-- The state an `AppleCinemaDisplay` instance retains after construction. -/
structure Session where
  device_info : hiddev_devinfo
  vendor_id : Nat
  vendor_name : String
  product_id : Nat
  product_name : String
  usage_ref : hiddev_usage_ref
  rep_info : hiddev_report_info
deriving Repr, DecidableEq

/-- The driver transport double for the operation phase: `stored` is the one
brightness value the driver holds (writes are echoed back on reads), and each
ioctl request used by get/set has a status the double returns for it. -/
structure Device where
  stored : Int
  gusage_status : Int
  greport_status : Int
  susage_status : Int
  sreport_status : Int
deriving Repr, DecidableEq

/-- The fatal `SystemExit` errors of the operation phase, one per checked
driver call; each corresponds to the message string raised by the source
("Get usage failed", "Get report failed", "Set usage failed",
"Set report failed"). -/
inductive FatalErr where
  | getUsageFailed : FatalErr
  | getReportFailed : FatalErr
  | setUsageFailed : FatalErr
  | setReportFailed : FatalErr
deriving Repr, DecidableEq

/-- Observable events of a session operation: the out-of-range warning print,
the assignment of a value into the retained `usage_ref.value` buffer field,
and the issued driver calls (with the buffer value sent for `HIDIOCSUSAGE`
and the enumeration index for `HIDIOCAPPLICATION`). -/
inductive Ev where
  | warn : Ev
  | store : Int → Ev
  | gdevinfo : Ev
  | application : Nat → Ev
  | initreport : Ev
  | gusage : Ev
  | greport : Ev
  | susage : Int → Ev
  | sreport : Ev
deriving Repr, DecidableEq

/-- Recogniser for `HIDIOCSUSAGE` call events. -/
def Ev.isSusage : Ev → Bool
  | Ev.susage _ => true
  | _ => false

/-- Recogniser for `HIDIOCSREPORT` call events. -/
def Ev.isSreport : Ev → Bool
  | Ev.sreport => true
  | _ => false

/-- Recogniser for driver-call events (as opposed to the warning print and
the in-memory buffer store). -/
def Ev.isCall : Ev → Bool
  | Ev.warn => false
  | Ev.store _ => false
  | _ => true

/-- Outcome of one session operation: the event trace, the final transport
and session states (mutations persist even into a fatal error), the fatal
error raised if any, and the returned value for `get_brightness`. -/
structure OpResult where
  trace : List Ev
  dev : Device
  sess : Session
  err : Option FatalErr
  ret : Option Int
deriving Repr, DecidableEq

/-! ## Session operations (src/acdcontrol.py lines 214-250) -/

/-- Method `get_brightness` (src lines 214-224): issue `HIDIOCGUSAGE` (the
driver fills `usage_ref.value`), then `HIDIOCGREPORT`, each fatal on a
negative status, and return `usage_ref.value`. -/
def get_brightness (dev : Device) (s : Session) : OpResult :=
  if dev.gusage_status < 0 then
    { trace := [Ev.gusage], dev := dev, sess := s,
      err := some FatalErr.getUsageFailed, ret := none }
  else
    let s1 : Session :=
      { s with usage_ref := { s.usage_ref with value := dev.stored } }
    if dev.greport_status < 0 then
      { trace := [Ev.gusage, Ev.greport], dev := dev, sess := s1,
        err := some FatalErr.getReportFailed, ret := none }
    else
      { trace := [Ev.gusage, Ev.greport], dev := dev, sess := s1,
        err := none, ret := some s1.usage_ref.value }

/-- Method `set_brightness` (src lines 226-242): warn when the input is
outside `[0, 255]`, clamp with `max(0, min(255, value))`, store the clamped
value into `usage_ref.value`, then issue `HIDIOCSUSAGE` followed by
`HIDIOCSREPORT`, each fatal on a negative status.  On the transport double a
successful `HIDIOCSUSAGE` latches the sent buffer value into `stored`. -/
def set_brightness (dev : Device) (s : Session) (value : Int) : OpResult :=
  let warnEvs : List Ev := if 256 ≤ value ∨ value < 0 then [Ev.warn] else []
  let v : Int := max 0 (min 255 value)
  let s1 : Session := { s with usage_ref := { s.usage_ref with value := v } }
  let t1 : List Ev := warnEvs ++ [Ev.store v, Ev.susage v]
  if dev.susage_status < 0 then
    { trace := t1, dev := dev, sess := s1,
      err := some FatalErr.setUsageFailed, ret := none }
  else
    let dev1 : Device := { dev with stored := s1.usage_ref.value }
    if dev1.sreport_status < 0 then
      { trace := t1 ++ [Ev.sreport], dev := dev1, sess := s1,
        err := some FatalErr.setReportFailed, ret := none }
    else
      { trace := t1 ++ [Ev.sreport], dev := dev1, sess := s1,
        err := none, ret := none }

/-- Method `adjust_brightness` (src lines 244-250): read the current value
with `get_brightness`, add the increment, and hand the sum to
`set_brightness`; a fatal error in the read propagates before any write. -/
def adjust_brightness (dev : Device) (s : Session) (increment : Int) :
    OpResult :=
  let r := get_brightness dev s
  match r.ret with
  | some current =>
    let r2 := set_brightness r.dev r.sess (current + increment)
    { r2 with trace := r.trace ++ r2.trace }
  | none => r

/-- The composite the specification names: run `get_brightness`, then apply
`set_brightness` to the returned value plus the delta (the clamp happens
inside `set_brightness`).  Stated separately from `adjust_brightness` so the
equivalence claim compares the code path against the specification's words. -/
def spec_adjust (dev : Device) (s : Session) (d : Int) : OpResult :=
  let r := get_brightness dev s
  match r.ret with
  | some current =>
    let r2 := set_brightness r.dev r.sess (current + d)
    { trace := r.trace ++ r2.trace, dev := r2.dev, sess := r2.sess,
      err := r2.err, ret := r2.ret }
  | none => r

/-! ## Session construction (src/acdcontrol.py lines 149-200) -/

/-- Construction failures.  The first three are raised as
`DeviceNotSupported` acceptance errors by the source; the last is the
`SystemExit` fatal raised when `HIDIOCINITREPORT` returns a negative
status. -/
inductive CtorError where
  | vendorNotSupported : Nat → CtorError
  | productNotSupported : Nat → CtorError
  | notAMonitor : CtorError
  | initReportFailed : CtorError
deriving Repr, DecidableEq

/-- The transport double for construction: the `hiddev_devinfo` record the
driver fills on `HIDIOCGDEVINFO`, the application usage value returned by
`HIDIOCAPPLICATION` for each index, and the status of `HIDIOCINITREPORT`. -/
structure CtorInput where
  devinfo : hiddev_devinfo
  applications : Nat → Nat
  initreport_status : Int

/-- Outcome of construction: the event trace, the built session when
construction reached the Ready state, and the error otherwise. -/
structure CtorResult where
  trace : List Ev
  sess : Option Session
  err : Option CtorError
deriving Repr, DecidableEq

/-- The application-enumeration loop (src lines 179-186) scanning indices
`start, start+1, ...` for `remaining` steps: each probed index contributes an
`Ev.application` event, and the loop breaks at the first application whose
bits 16-23 equal `0x80`, returning that index. -/
def scan_apps (apps : Nat → Nat) (start remaining : Nat) :
    List Ev × Option Nat :=
  match remaining with
  | 0 => ([], none)
  | k + 1 =>
    if (apps start >>> 16) &&& 0xFF = 0x80 then
      ([Ev.application start], some start)
    else
      let rest := scan_apps apps (start + 1) k
      (Ev.application start :: rest.1, rest.2)

/-- Constructor `AppleCinemaDisplay.__init__` (src lines 149-200): read the
device info, accept the vendor then the product against
`SUPPORTED_DEVICES`, enumerate applications looking for the monitor usage
page `0x80`, initialise the report structures, and retain the
`hiddev_usage_ref` / `hiddev_report_info` request templates (ctypes zeroes
the unset `value` field). -/
def acd_init (inp : CtorInput) : CtorResult :=
  let di := inp.devinfo
  match SUPPORTED_DEVICES.find? (fun e => e.1.1 == di.vendor) with
  | none =>
    { trace := [Ev.gdevinfo], sess := none,
      err := some (CtorError.vendorNotSupported di.vendor) }
  | some ((vid, vname), products) =>
    match products.find? (fun p => p.1 == di.product) with
    | none =>
      { trace := [Ev.gdevinfo], sess := none,
        err := some (CtorError.productNotSupported di.product) }
    | some (pid, pname) =>
      let scanned := scan_apps inp.applications 0 di.num_applications
      match scanned.2 with
      | none =>
        { trace := Ev.gdevinfo :: scanned.1, sess := none,
          err := some CtorError.notAMonitor }
      | some _ =>
        if inp.initreport_status < 0 then
          { trace := Ev.gdevinfo :: scanned.1 ++ [Ev.initreport],
            sess := none, err := some CtorError.initReportFailed }
        else
          { trace := Ev.gdevinfo :: scanned.1 ++ [Ev.initreport],
            sess := some
              { device_info := di, vendor_id := vid, vendor_name := vname,
                product_id := pid, product_name := pname,
                usage_ref :=
                  { report_type := HID_REPORT_TYPE_FEATURE,
                    report_id := BRIGHTNESS_CONTROL,
                    field_index := 0, usage_index := 0,
                    usage_code := USAGE_CODE, value := 0 },
                rep_info :=
                  { report_type := HID_REPORT_TYPE_FEATURE,
                    report_id := BRIGHTNESS_CONTROL,
                    num_fields := 1 } },
            err := none }

/-! ## Sequences of operations on a Ready session -/

/-- One operation request against a Ready session. -/
inductive Op where
  | getb : Op
  | setb : Int → Op
  | adjb : Int → Op
deriving Repr, DecidableEq

/-- Dispatch one operation. -/
def run_op (dev : Device) (s : Session) : Op → OpResult
  | Op.getb => get_brightness dev s
  | Op.setb v => set_brightness dev s v
  | Op.adjb d => adjust_brightness dev s d

/-- Run a sequence of operations, threading the transport and session
states; the program terminates at the first fatal error, so the run stops
there with the states the failing operation left behind. -/
def run_ops (dev : Device) (s : Session) : List Op → Device × Session
  | [] => (dev, s)
  | op :: rest =>
    let r := run_op dev s op
    match r.err with
    | some _ => (r.dev, r.sess)
    | none => run_ops r.dev r.sess rest

/-- The construction-time constants of the retained request templates: every
`usage_ref` field other than `value`, and the whole `rep_info` record
(src lines 193-200). -/
def templates_const (s : Session) : Prop :=
  s.usage_ref.report_type = HID_REPORT_TYPE_FEATURE ∧
  s.usage_ref.report_id = BRIGHTNESS_CONTROL ∧
  s.usage_ref.field_index = 0 ∧
  s.usage_ref.usage_index = 0 ∧
  s.usage_ref.usage_code = USAGE_CODE ∧
  s.rep_info.report_type = HID_REPORT_TYPE_FEATURE ∧
  s.rep_info.report_id = BRIGHTNESS_CONTROL ∧
  s.rep_info.num_fields = 1

instance (s : Session) : Decidable (templates_const s) := by
  unfold templates_const; infer_instance

/-! ## Concrete scenario inputs -/

/-- Device info of the end-to-end scenario: vendor 0x05ac, product 0x9219,
one application. -/
def di6 : hiddev_devinfo := ⟨0, 0, 0, 0, 0x05ac, 0x9219, 0, 1⟩

/-- Construction input whose single application carries the monitor usage
page in bits 16-23 (application usage value `0x00800001`). -/
def ctor6 : CtorInput := ⟨di6, fun _ => 0x00800001, 0⟩

/-- Construction input using the specification's literal application value
`0x80010000`, whose bits 16-23 are `0x01`. -/
def ctor6spec : CtorInput := ⟨di6, fun _ => 0x80010000, 0⟩

/-- Transport double holding brightness 128, all statuses zero. -/
def dev6 : Device := ⟨128, 0, 0, 0, 0⟩

/-- Transport double holding the out-of-range brightness 300. -/
def dev7 : Device := ⟨300, 0, 0, 0, 0⟩

/-- Transport double where `HIDIOCSUSAGE` succeeds and `HIDIOCSREPORT`
returns a negative status. -/
def dev10 : Device := ⟨5, 0, 0, 0, -1⟩

/-- Fallback session used only to destructure an `Option Session`. -/
def default_session : Session :=
  ⟨⟨0, 0, 0, 0, 0, 0, 0, 0⟩, 0, "", 0, "", ⟨0, 0, 0, 0, 0, 0⟩, ⟨0, 0, 0⟩⟩

/-- The Ready session built by the end-to-end scenario. -/
def s6 : Session := (acd_init ctor6).sess.getD default_session

/-- Device info of the enumeration scenario: vendor 0x05ac, product 0x9219,
three applications. -/
def di5 : hiddev_devinfo := ⟨0, 0, 0, 0, 0x05ac, 0x9219, 0, 3⟩

/-- Application table of the failing enumeration scenario. -/
def apps5a : Nat → Nat := fun i => [0x00010000, 0x00040000, 0x00070000].getD i 0

/-- Application table with the third entry carrying the monitor usage page
in bits 16-23 (`0x00800000`). -/
def apps5b : Nat → Nat := fun i => [0x00010000, 0x00040000, 0x00800000].getD i 0

/-- Application table with the specification's literal third entry
`0x80000000`, whose bits 16-23 are `0x00`. -/
def apps5spec : Nat → Nat :=
  fun i => [0x00010000, 0x00040000, 0x80000000].getD i 0

/-- The percentage the CLI prints for a brightness reading (src line 281):
`100 * brightness / 256` as an exact rational. -/
def percent_of_256 (b : Int) : ℚ := 100 * (b : ℚ) / 256

/-! ## Opcode layer lemmas -/

/-- Sanity anchor: the model reproduces the well-known numeric value of the
Linux `HIDIOCGUSAGE` request code. -/
theorem HIDIOCGUSAGE_eq : HIDIOCGUSAGE = 0xC018480B := by decide

/-- With in-range components the packed opcode equals its arithmetic
window decomposition. -/
theorem IOC_eq_arith (dir group nr size : Nat)
    (hg : group < 256) (hn : nr < 256) (hs : size < 16384) :
    IOC dir group nr size =
      dir * 1073741824 + size * 65536 + group * 256 + nr := by
  unfold IOC
  rw [Nat.lor_assoc, Nat.lor_assoc]
  rw [Nat.shiftLeft_eq, Nat.shiftLeft_eq, Nat.shiftLeft_eq]
  have h1 : group * 2 ^ 8 ||| nr = group * 2 ^ 8 + nr := by
    rw [Nat.mul_comm group (2 ^ 8), ← Nat.mul_add_lt_is_or (by omega) group,
      Nat.mul_comm (2 ^ 8) group]
  have hlow : group * 2 ^ 8 + nr < 2 ^ 16 := by omega
  have h2 : size * 2 ^ 16 ||| (group * 2 ^ 8 + nr) =
      size * 2 ^ 16 + (group * 2 ^ 8 + nr) := by
    rw [Nat.mul_comm size (2 ^ 16), ← Nat.mul_add_lt_is_or hlow size,
      Nat.mul_comm (2 ^ 16) size]
  have hmid : size * 2 ^ 16 + (group * 2 ^ 8 + nr) < 2 ^ 30 := by omega
  have h3 : dir * 2 ^ 30 ||| (size * 2 ^ 16 + (group * 2 ^ 8 + nr)) =
      dir * 2 ^ 30 + (size * 2 ^ 16 + (group * 2 ^ 8 + nr)) := by
    rw [Nat.mul_comm dir (2 ^ 30), ← Nat.mul_add_lt_is_or hmid dir,
      Nat.mul_comm (2 ^ 30) dir]
  rw [h1, h2, h3]
  omega

/-- Decoding recovers the direction bits. -/
theorem IOC_DIR_IOC (dir group nr size : Nat) (hd : dir < 4)
    (hg : group < 256) (hn : nr < 256) (hs : size < 16384) :
    IOC_DIR (IOC dir group nr size) = dir := by
  rw [IOC_eq_arith dir group nr size hg hn hs]
  unfold IOC_DIR
  rw [Nat.shiftRight_eq_div_pow]
  have : (3 : Nat) = 2 ^ 2 - 1 := by norm_num
  rw [this, Nat.and_pow_two_sub_one_eq_mod]
  norm_num
  omega

/-- Decoding recovers the payload size. -/
theorem IOC_SIZE_IOC (dir group nr size : Nat)
    (hg : group < 256) (hn : nr < 256) (hs : size < 16384) :
    IOC_SIZE (IOC dir group nr size) = size := by
  rw [IOC_eq_arith dir group nr size hg hn hs]
  unfold IOC_SIZE
  rw [Nat.shiftRight_eq_div_pow]
  have : (1 <<< 14 - 1 : Nat) = 2 ^ 14 - 1 := by decide
  rw [this, Nat.and_pow_two_sub_one_eq_mod]
  norm_num
  omega

/-- Decoding recovers the group identifier. -/
theorem IOC_GROUP_IOC (dir group nr size : Nat)
    (hg : group < 256) (hn : nr < 256) (hs : size < 16384) :
    IOC_GROUP (IOC dir group nr size) = group := by
  rw [IOC_eq_arith dir group nr size hg hn hs]
  unfold IOC_GROUP
  rw [Nat.shiftRight_eq_div_pow]
  have : (0xFF : Nat) = 2 ^ 8 - 1 := by norm_num
  rw [this, Nat.and_pow_two_sub_one_eq_mod]
  norm_num
  omega

/-- Decoding recovers the operation number. -/
theorem IOC_NR_IOC (dir group nr size : Nat)
    (hg : group < 256) (hn : nr < 256) (hs : size < 16384) :
    IOC_NR (IOC dir group nr size) = nr := by
  rw [IOC_eq_arith dir group nr size hg hn hs]
  unfold IOC_NR
  have : (0xFF : Nat) = 2 ^ 8 - 1 := by norm_num
  rw [this, Nat.and_pow_two_sub_one_eq_mod]
  omega

/-- The low 30 bits of an opcode do not depend on the direction flag. -/
theorem IOC_low_bits (dir group nr size : Nat)
    (hg : group < 256) (hn : nr < 256) (hs : size < 16384) :
    IOC dir group nr size &&& (1 <<< 30 - 1) =
      size * 65536 + group * 256 + nr := by
  rw [IOC_eq_arith dir group nr size hg hn hs]
  have : (1 <<< 30 - 1 : Nat) = 2 ^ 30 - 1 := by decide
  rw [this, Nat.and_pow_two_sub_one_eq_mod]
  norm_num
  omega

/-! ## Operation-phase helper lemmas -/

/-- After `set_brightness` the retained buffer field holds the clamped
input, whatever the driver statuses were. -/
theorem set_brightness_sess_value (dev : Device) (s : Session) (v : Int) :
    (set_brightness dev s v).sess.usage_ref.value = max 0 (min 255 v) := by
  unfold set_brightness
  by_cases h1 : dev.susage_status < 0 <;>
    by_cases h2 : dev.sreport_status < 0 <;>
      simp [h1, h2]

/-- C1: for every integer input, `set_brightness` stores the clamped value
`max 0 (min 255 v)` into the retained `usage_ref.value`, its trace starts
with the optional warning followed by the buffer store and only then the
first driver call, the warning is emitted exactly when the input lies
outside `[0, 255]`, and the `HIDIOCSUSAGE` driver call is always issued with
the clamped value (out-of-range inputs are never rejected). -/
theorem c1_set_brightness_clamps (dev : Device) (s : Session) (v : Int) :
    (set_brightness dev s v).sess.usage_ref.value = max 0 (min 255 v) ∧
    (Ev.warn ∈ (set_brightness dev s v).trace ↔ v < 0 ∨ 255 < v) ∧
    (∃ t, (set_brightness dev s v).trace =
        (if 256 ≤ v ∨ v < 0 then [Ev.warn] else []) ++
          Ev.store (max 0 (min 255 v)) ::
            Ev.susage (max 0 (min 255 v)) :: t) ∧
    Ev.susage (max 0 (min 255 v)) ∈ (set_brightness dev s v).trace := by
  refine ⟨set_brightness_sess_value dev s v, ?_, ?_, ?_⟩ <;>
    unfold set_brightness <;>
    by_cases h1 : dev.susage_status < 0 <;>
      by_cases h2 : dev.sreport_status < 0 <;>
        by_cases hw : 256 ≤ v ∨ v < 0 <;>
          simp [h1, h2, hw] <;>
          omega

/-- C2: `adjust_brightness d` runs exactly the composite the specification
describes, namely `get_brightness` followed by `set_brightness` applied to
the returned value plus `d`, with the clamp happening inside
`set_brightness`. -/
theorem c2_adjust_equiv (dev : Device) (s : Session) (d : Int) :
    adjust_brightness dev s d = spec_adjust dev s d ∧
    ∀ current, (get_brightness dev s).ret = some current →
      (adjust_brightness dev s d).sess.usage_ref.value =
        max 0 (min 255 (current + d)) := by
  constructor
  · unfold adjust_brightness spec_adjust
    cases h : (get_brightness dev s).ret <;> simp
  · intro current hc
    unfold adjust_brightness
    simp only [hc]
    simpa using set_brightness_sess_value (get_brightness dev s).dev
      (get_brightness dev s).sess (current + d)

/-- Witness for C2 at the end-to-end scenario session: adjusting by 10 from
a driver value of 128 stores 138. -/
theorem c2_adjust_equiv_witness :
    adjust_brightness dev6 s6 10 = spec_adjust dev6 s6 10 ∧
    (adjust_brightness dev6 s6 10).sess.usage_ref.value = 138 := by
  refine ⟨(c2_adjust_equiv dev6 s6 10).1, ?_⟩
  have h := (c2_adjust_equiv dev6 s6 10).2 128 (by decide)
  rw [h]; decide

/-- C3: on an echoing transport double with succeeding driver calls,
`set_brightness v` for `v` in `[0, 255]` followed by `get_brightness`
returns exactly `v`. -/
theorem c3_set_get_roundtrip (dev : Device) (s : Session) (v : Int)
    (h0 : 0 ≤ v) (h1 : v ≤ 255)
    (hgu : 0 ≤ dev.gusage_status) (hgr : 0 ≤ dev.greport_status)
    (hsu : 0 ≤ dev.susage_status) (hsr : 0 ≤ dev.sreport_status) :
    (set_brightness dev s v).err = none ∧
    (get_brightness (set_brightness dev s v).dev
        (set_brightness dev s v).sess).ret = some v := by
  have hv : max 0 (min 255 v) = v := by omega
  have hsu' : ¬ dev.susage_status < 0 := not_lt.mpr hsu
  have hsr' : ¬ dev.sreport_status < 0 := not_lt.mpr hsr
  have hgu' : ¬ dev.gusage_status < 0 := not_lt.mpr hgu
  have hgr' : ¬ dev.greport_status < 0 := not_lt.mpr hgr
  unfold set_brightness get_brightness
  simp [hsu', hsr', hgu', hgr', hv]

/-- Witness for C3: round-tripping 77 through the end-to-end scenario
session. -/
theorem c3_set_get_roundtrip_witness :
    (set_brightness dev6 s6 77).err = none ∧
    (get_brightness (set_brightness dev6 s6 77).dev
        (set_brightness dev6 s6 77).sess).ret = some 77 :=
  c3_set_get_roundtrip dev6 s6 77 (by decide) (by decide) (by decide)
    (by decide) (by decide) (by decide)

/-! ## Construction-phase lemmas -/

/-- C4: when the reported vendor is absent from `SUPPORTED_DEVICES`,
construction fails with the unsupported-vendor acceptance error after only
the device-info read: the trace contains no `HIDIOCAPPLICATION` and no
`HIDIOCINITREPORT` call. -/
theorem c4_unsupported_vendor (inp : CtorInput)
    (h : ∀ e ∈ SUPPORTED_DEVICES, e.1.1 ≠ inp.devinfo.vendor) :
    acd_init inp =
      { trace := [Ev.gdevinfo], sess := none,
        err := some (CtorError.vendorNotSupported inp.devinfo.vendor) } := by
  have hfind : SUPPORTED_DEVICES.find?
      (fun e => e.1.1 == inp.devinfo.vendor) = none := by
    rw [List.find?_eq_none]
    intro e he
    simpa using h e he
  simp only [acd_init, hfind]

/-- Witness for C4 at vendor 0x1234, which is not in the table. -/
theorem c4_unsupported_vendor_witness :
    acd_init ⟨⟨0, 0, 0, 0, 0x1234, 0x9219, 0, 1⟩, fun _ => 0x00800001, 0⟩ =
      { trace := [Ev.gdevinfo], sess := none,
        err := some (CtorError.vendorNotSupported 0x1234) } :=
  c4_unsupported_vendor ⟨⟨0, 0, 0, 0, 0x1234, 0x9219, 0, 1⟩,
    fun _ => 0x00800001, 0⟩ (by decide)

/-- Consing the probe of `start` onto the probes of the next `m` indices
gives the probes of `m + 1` consecutive indices. -/
theorem map_application_shift (start m : Nat) :
    Ev.application start ::
      (List.range m).map (fun i => Ev.application (start + 1 + i)) =
    (List.range (m + 1)).map (fun i => Ev.application (start + i)) := by
  rw [List.range_succ_eq_map, List.map_cons, List.map_map]
  refine congrArg₂ List.cons (by rw [Nat.add_zero]) ?_
  refine congrArg (fun f => List.map f (List.range m)) ?_
  funext i
  simp only [Function.comp, Nat.succ_eq_add_one]
  rw [show start + (i + 1) = start + 1 + i by omega]

/-- When no scanned application matches the monitor byte, the enumeration
probes every index in order and reports no find. -/
theorem scan_apps_of_none (apps : Nat → Nat) :
    ∀ (n start : Nat),
      (∀ i, i < n → (apps (start + i) >>> 16) &&& 0xFF ≠ 0x80) →
      scan_apps apps start n =
        ((List.range n).map (fun i => Ev.application (start + i)), none) := by
  intro n
  induction n with
  | zero => intro start _; simp [scan_apps]
  | succ k ih =>
    intro start h
    have h0 : ¬ (apps start >>> 16) &&& 0xFF = 0x80 := by
      have := h 0 (Nat.succ_pos k); simpa using this
    have hrest : ∀ i, i < k → (apps (start + 1 + i) >>> 16) &&& 0xFF ≠ 0x80 := by
      intro i hi
      have := h (i + 1) (by omega)
      have e : start + (i + 1) = start + 1 + i := by omega
      rwa [e] at this
    simp only [scan_apps, if_neg h0, ih (start + 1) hrest]
    rw [← map_application_shift start k]

/-- The enumeration stops at the first index whose application value carries
the monitor byte, probing exactly the indices up to and including it. -/
theorem scan_apps_of_found (apps : Nat → Nat) :
    ∀ (j n start : Nat), j < n →
      (apps (start + j) >>> 16) &&& 0xFF = 0x80 →
      (∀ i, i < j → (apps (start + i) >>> 16) &&& 0xFF ≠ 0x80) →
      scan_apps apps start n =
        ((List.range (j + 1)).map (fun i => Ev.application (start + i)),
          some (start + j)) := by
  intro j
  induction j with
  | zero =>
    intro n start hn hj _
    match n, hn with
    | k + 1, _ =>
      rw [Nat.add_zero] at hj
      simp [scan_apps, if_pos hj, show List.range 1 = [0] from by decide]
  | succ j ih =>
    intro n start hn hj hbefore
    match n, hn with
    | k + 1, hn =>
      have h0 : ¬ (apps start >>> 16) &&& 0xFF = 0x80 := by
        have := hbefore 0 (Nat.succ_pos j); simpa using this
      have hj' : (apps (start + 1 + j) >>> 16) &&& 0xFF = 0x80 := by
        have e : start + (j + 1) = start + 1 + j := by omega
        rwa [e] at hj
      have hbefore' : ∀ i, i < j → (apps (start + 1 + i) >>> 16) &&& 0xFF ≠ 0x80 := by
        intro i hi
        have := hbefore (i + 1) (by omega)
        have e : start + (i + 1) = start + 1 + i := by omega
        rwa [e] at this
      have hjk : j < k := by omega
      simp only [scan_apps, if_neg h0, ih k (start + 1) hjk hj' hbefore']
      rw [← map_application_shift start (j + 1),
        show start + 1 + j = start + (j + 1) by omega]

/-- C5 counterexample: with the specification's literal replacement value
`0x80000000` at index 2, bits 16-23 of the application value are `0x00`, so
construction still fails with the not-a-monitor error instead of succeeding
at index 2 as the claim states. -/
theorem c5_counterexample :
    (acd_init ⟨di5, apps5spec, 0⟩).sess = none ∧
    (acd_init ⟨di5, apps5spec, 0⟩).err = some CtorError.notAMonitor := by
  decide

/-- C5 (amended): enumeration stops at the first application whose bits
16-23 (the byte the code tests) equal `0x80` and fails with the
not-a-monitor error only after probing all `num_applications` entries; with
`num_applications = 3` and application values `0x00010000, 0x00040000,
0x00070000` construction fails after three probes, and replacing the third
value with `0x00800000` (monitor byte in bits 16-23) makes construction
succeed at index 2. -/
theorem c5_enumeration :
    (∀ apps start n,
        (∀ i, i < n → (apps (start + i) >>> 16) &&& 0xFF ≠ 0x80) →
        scan_apps apps start n =
          ((List.range n).map (fun i => Ev.application (start + i)), none)) ∧
    (∀ apps start n j, j < n →
        (apps (start + j) >>> 16) &&& 0xFF = 0x80 →
        (∀ i, i < j → (apps (start + i) >>> 16) &&& 0xFF ≠ 0x80) →
        scan_apps apps start n =
          ((List.range (j + 1)).map (fun i => Ev.application (start + i)),
            some (start + j))) ∧
    (acd_init ⟨di5, apps5a, 0⟩).err = some CtorError.notAMonitor ∧
    (acd_init ⟨di5, apps5a, 0⟩).trace =
      [Ev.gdevinfo, Ev.application 0, Ev.application 1, Ev.application 2] ∧
    (acd_init ⟨di5, apps5b, 0⟩).sess.isSome = true ∧
    (scan_apps apps5b 0 3).2 = some 2 ∧
    (acd_init ⟨di5, apps5b, 0⟩).trace =
      [Ev.gdevinfo, Ev.application 0, Ev.application 1, Ev.application 2,
        Ev.initreport] :=
  ⟨fun apps start n h => scan_apps_of_none apps n start h,
    fun apps start n j hn hj hb => scan_apps_of_found apps j n start hn hj hb,
    by decide, by decide, by decide, by decide, by decide⟩

/-- Witness for C5: the two enumeration laws evaluated on the concrete
three-application tables. -/
theorem c5_enumeration_witness :
    scan_apps apps5a 0 3 =
      ([Ev.application 0, Ev.application 1, Ev.application 2], none) ∧
    scan_apps apps5b 0 3 =
      ([Ev.application 0, Ev.application 1, Ev.application 2], some 2) := by
  constructor
  · have h := c5_enumeration.1 apps5a 0 3 (by decide)
    rw [h]; decide
  · have h := c5_enumeration.2.1 apps5b 0 3 2 (by decide) (by decide)
      (by decide)
    rw [h]; decide

/-- C6 counterexample: with the specification's literal application value
`0x80010000`, bits 16-23 are `0x01`, so construction does not reach Ready
and fails with the not-a-monitor error. -/
theorem c6_counterexample :
    (acd_init ctor6spec).sess = none ∧
    (acd_init ctor6spec).err = some CtorError.notAMonitor := by decide

/-- C6 (amended): with vendor 0x05ac, product 0x9219, one application whose
value `0x00800001` carries the monitor byte in bits 16-23, construction
reaches Ready; `get_brightness` then returns the value 128 the driver double
placed in the usage-reference buffer, which the CLI prints as 50 percent of
256. -/
theorem c6_end_to_end :
    (acd_init ctor6).err = none ∧
    (acd_init ctor6).sess = some s6 ∧
    (get_brightness dev6 s6).ret = some 128 ∧
    percent_of_256 128 = 50 := by
  refine ⟨by decide, by decide, by decide, ?_⟩
  unfold percent_of_256
  norm_num

/-- C7 counterexample: on the Ready session of the end-to-end scenario, a
driver double that places 300 in the usage-reference buffer makes
`get_brightness` return 300, which is outside `[0, 255]`: the code never
clamps on the read path. -/
theorem c7_counterexample :
    (get_brightness dev7 s6).ret = some 300 ∧ ¬ ((300 : Int) ≤ 255) := by
  decide

/-- C7 (amended): `get_brightness` returns exactly the value the driver
placed in the buffer, so the result lies in `[0, 255]` whenever the
driver-placed value does. -/
theorem c7_get_brightness_range (dev : Device) (s : Session)
    (hgu : 0 ≤ dev.gusage_status) (hgr : 0 ≤ dev.greport_status)
    (h0 : 0 ≤ dev.stored) (h1 : dev.stored ≤ 255) :
    (get_brightness dev s).ret = some dev.stored ∧
    ∀ r, (get_brightness dev s).ret = some r → 0 ≤ r ∧ r ≤ 255 := by
  have hgu' : ¬ dev.gusage_status < 0 := not_lt.mpr hgu
  have hgr' : ¬ dev.greport_status < 0 := not_lt.mpr hgr
  refine ⟨by simp [get_brightness, hgu', hgr'], ?_⟩
  intro r hr
  simp [get_brightness, hgu', hgr'] at hr
  omega

/-- Witness for C7 on the end-to-end scenario transport holding 128. -/
theorem c7_get_brightness_range_witness :
    (get_brightness dev6 s6).ret = some 128 ∧
    (0 : Int) ≤ 128 ∧ (128 : Int) ≤ 255 := by
  have h := c7_get_brightness_range dev6 s6 (by decide) (by decide)
    (by decide) (by decide)
  refine ⟨?_, h.2 128 ?_⟩ <;> (rw [h.1]; decide)

/-- C8: for every in-range (group, operation, size) triple, decoding a built
opcode recovers the direction, size, group and operation exactly, and the
read-only and write-only opcodes with the same components agree on all bits
outside the two direction bits while their decoded directions differ. -/
theorem c8_opcode_roundtrip (group nr size : Nat)
    (hg : group < 256) (hn : nr < 256) (hs : size < 16384) :
    (∀ dir, dir < 4 →
      IOC_DIR (IOC dir group nr size) = dir ∧
      IOC_SIZE (IOC dir group nr size) = size ∧
      IOC_GROUP (IOC dir group nr size) = group ∧
      IOC_NR (IOC dir group nr size) = nr) ∧
    IOR group nr size &&& (1 <<< 30 - 1) =
      IOW group nr size &&& (1 <<< 30 - 1) ∧
    IOC_DIR (IOR group nr size) = IOC_READ ∧
    IOC_DIR (IOW group nr size) = IOC_WRITE ∧
    IOC_READ ≠ IOC_WRITE := by
  refine ⟨fun dir hd =>
    ⟨IOC_DIR_IOC dir group nr size hd hg hn hs,
      IOC_SIZE_IOC dir group nr size hg hn hs,
      IOC_GROUP_IOC dir group nr size hg hn hs,
      IOC_NR_IOC dir group nr size hg hn hs⟩, ?_, ?_, ?_, by decide⟩
  · rw [IOR, IOW, IOC_low_bits IOC_READ group nr size hg hn hs,
      IOC_low_bits IOC_WRITE group nr size hg hn hs]
  · exact IOC_DIR_IOC IOC_READ group nr size (by decide) hg hn hs
  · exact IOC_DIR_IOC IOC_WRITE group nr size (by decide) hg hn hs

/-- Witness for C8 at the components of `HIDIOCGUSAGE` (group `ord H = 72`,
operation 0x0B, payload 24 bytes). -/
theorem c8_opcode_roundtrip_witness :
    IOC_DIR (IOC 3 72 11 24) = 3 ∧ IOC_SIZE (IOC 3 72 11 24) = 24 ∧
    IOC_GROUP (IOC 3 72 11 24) = 72 ∧ IOC_NR (IOC 3 72 11 24) = 11 ∧
    IOR 72 11 24 &&& (1 <<< 30 - 1) = IOW 72 11 24 &&& (1 <<< 30 - 1) := by
  have h := c8_opcode_roundtrip 72 11 24 (by decide) (by decide) (by decide)
  have h3 := h.1 3 (by decide)
  exact ⟨h3.1, h3.2.1, h3.2.2.1, h3.2.2.2, h.2.1⟩

/-- Reading brightness leaves every template field other than
`usage_ref.value` unchanged. -/
theorem get_brightness_templates (dev : Device) (s : Session)
    (h : templates_const s) :
    templates_const (get_brightness dev s).sess := by
  unfold get_brightness
  unfold templates_const at h ⊢
  by_cases h1 : dev.gusage_status < 0 <;>
    by_cases h2 : dev.greport_status < 0 <;>
      simpa [h1, h2] using h

/-- Writing brightness leaves every template field other than
`usage_ref.value` unchanged. -/
theorem set_brightness_templates (dev : Device) (s : Session) (v : Int)
    (h : templates_const s) :
    templates_const (set_brightness dev s v).sess := by
  unfold set_brightness
  unfold templates_const at h ⊢
  by_cases h1 : dev.susage_status < 0 <;>
    by_cases h2 : dev.sreport_status < 0 <;>
      simpa [h1, h2] using h

/-- Every single operation preserves the template constants. -/
theorem run_op_templates (dev : Device) (s : Session) (op : Op)
    (h : templates_const s) :
    templates_const (run_op dev s op).sess := by
  cases op with
  | getb => exact get_brightness_templates dev s h
  | setb v => exact set_brightness_templates dev s v h
  | adjb d =>
    unfold run_op adjust_brightness
    cases hr : (get_brightness dev s).ret with
    | none =>
      simp only [hr]
      exact get_brightness_templates dev s h
    | some current =>
      simp only [hr]
      exact set_brightness_templates (get_brightness dev s).dev
        (get_brightness dev s).sess (current + d)
        (get_brightness_templates dev s h)

/-- Every sequence of operations preserves the template constants. -/
theorem run_ops_templates (ops : List Op) :
    ∀ (dev : Device) (s : Session), templates_const s →
      templates_const (run_ops dev s ops).2 := by
  induction ops with
  | nil => intro dev s h; exact h
  | cons op rest ih =>
    intro dev s h
    unfold run_ops
    cases he : (run_op dev s op).err with
    | some e =>
      simp only [he]
      exact run_op_templates dev s op h
    | none =>
      simp only [he]
      exact ih (run_op dev s op).dev (run_op dev s op).sess
        (run_op_templates dev s op h)

/-- C9: every session built by construction carries the template constants
(`usage_ref` = Feature report 16, field 0, usage index 0, usage code
0x820010, and `rep_info` = Feature report 16 with one field), and every
sequence of get / set / adjust operations leaves all those fields at those
constants, whatever the transport double does. -/
theorem c9_templates_invariant :
    (∀ inp s0, (acd_init inp).sess = some s0 → templates_const s0) ∧
    (∀ dev s ops, templates_const s →
      templates_const (run_ops dev s ops).2) := by
  constructor
  · intro inp s0 h
    unfold acd_init at h
    cases hf : SUPPORTED_DEVICES.find? (fun e => e.1.1 == inp.devinfo.vendor) with
    | none => simp only [hf] at h; simp at h
    | some entry =>
      obtain ⟨⟨vid, vname⟩, products⟩ := entry
      simp only [hf] at h
      cases hp : products.find? (fun p => p.1 == inp.devinfo.product) with
      | none => simp only [hp] at h; simp at h
      | some prd =>
        obtain ⟨pid, pname⟩ := prd
        simp only [hp] at h
        cases hsc : (scan_apps inp.applications 0
            inp.devinfo.num_applications).2 with
        | none => simp only [hsc] at h; simp at h
        | some idx =>
          simp only [hsc] at h
          by_cases hi : inp.initreport_status < 0
          · rw [if_pos hi] at h; simp at h
          · rw [if_neg hi] at h
            rw [Option.some.injEq] at h
            subst h
            exact ⟨rfl, rfl, rfl, rfl, rfl, rfl, rfl, rfl⟩
  · intro dev s ops h
    exact run_ops_templates ops dev s h

/-- Witness for C9: the end-to-end scenario session has the template
constants and keeps them across a set / get / adjust sequence. -/
theorem c9_templates_invariant_witness :
    templates_const s6 ∧
    templates_const
      (run_ops dev6 s6 [Op.setb 300, Op.getb, Op.adjb (-50)]).2 := by
  have h1 := c9_templates_invariant.1 ctor6 s6 (by decide)
  exact ⟨h1,
    c9_templates_invariant.2 dev6 s6 [Op.setb 300, Op.getb, Op.adjb (-50)] h1⟩

/-- C10: when `HIDIOCSUSAGE` succeeds and `HIDIOCSREPORT` returns a negative
status, `set_brightness` terminates with the fatal set-report error, having
issued each of the two driver calls exactly once (no retry) and ending the
trace at the failing call; the retained `usage_ref.value` still holds the
newly clamped value, the device keeps the newly written value, and no store
of the pre-call brightness ever happens (no rollback). -/
theorem c10_no_rollback (dev : Device) (s : Session) (v : Int)
    (hsu : 0 ≤ dev.susage_status) (hsr : dev.sreport_status < 0) :
    (set_brightness dev s v).err = some FatalErr.setReportFailed ∧
    (set_brightness dev s v).sess.usage_ref.value = max 0 (min 255 v) ∧
    (set_brightness dev s v).dev.stored = max 0 (min 255 v) ∧
    ((set_brightness dev s v).trace.filter Ev.isSusage).length = 1 ∧
    ((set_brightness dev s v).trace.filter Ev.isSreport).length = 1 ∧
    (set_brightness dev s v).trace.getLast? = some Ev.sreport ∧
    (∀ w, Ev.store w ∈ (set_brightness dev s v).trace →
      w = max 0 (min 255 v)) := by
  have hsu' : ¬ dev.susage_status < 0 := not_lt.mpr hsu
  refine ⟨?_, set_brightness_sess_value dev s v, ?_, ?_, ?_, ?_, ?_⟩ <;>
    unfold set_brightness <;>
    by_cases hw : 256 ≤ v ∨ v < 0 <;>
      simp [hsu', hsr, hw, Ev.isSusage, Ev.isSreport]

/-- Witness for C10 on the transport whose set-report status is negative:
setting 300 leaves 255 in the buffer and in the device. -/
theorem c10_no_rollback_witness :
    (set_brightness dev10 s6 300).err = some FatalErr.setReportFailed ∧
    (set_brightness dev10 s6 300).sess.usage_ref.value = 255 ∧
    (set_brightness dev10 s6 300).dev.stored = 255 := by
  have h := c10_no_rollback dev10 s6 300 (by decide) (by decide)
  refine ⟨h.1, ?_, ?_⟩
  · rw [h.2.1]; decide
  · rw [h.2.2.1]; decide

end Acdcontrol
